import Mathlib

/-!
Verification of the StudyHub spreadsheet validation / merge logic
(`setup_data.py`, `update_excel.py`) against its specification.

The embedding is shallow: a spreadsheet cell holds a Python-style scalar
(`Val`), a sheet is a header row plus data rows, a workbook is an ordered
association list of named sheets.  Row dictionaries produced by the Python
code (`zip(headers, row)` comprehensions) are association lists with
last-binding-wins lookup, mirroring Python `dict` construction.

Modelling notes, applied uniformly:
  * header cells are `Option String` (the code calls `.lower()` on them, so
    string-or-empty is the domain on which the source is defined);
  * Python truthiness on a cell: `None`, `""` and `0` are falsy;
  * `str(x)` on a cell is `Val.pystr` (`None` renders as "None");
  * `x.startswith(t)` with a non-string `t` is modelled as `false`
    (`pyStartswith`); the claims below never evaluate it there.
-/

namespace StudyHub

/-- A Python scalar value as it appears in a spreadsheet cell or a JSON
patch: `None`, a string, or an integer. -/
inductive Val where
  | vnull
  | vstr (s : String)
  | vint (n : Int)
deriving DecidableEq, Repr

/-- Python truthiness of a cell value: `None`, `""`, `0` are falsy. -/
def Val.truthy : Val → Bool
  | .vnull => false
  | .vstr s => !(s == "")
  | .vint n => !(n == 0)

/-- Python `str(x)` for a cell value (used by f-string interpolation). -/
def Val.pystr : Val → String
  | .vnull => "None"
  | .vstr s => s
  | .vint n => toString n

/-- Python `x.startswith(t)` where `x` is already a string rendering and
`t` is a cell value; with a non-string `t` the source would raise, which the
claims never exercise, so it is totalised to `false`.  (Stated on the
character lists so that it evaluates in the kernel.) -/
def pyStartswith (x : Val) (t : Val) : Bool :=
  match t with
  | .vstr p => p.data.isPrefixOf x.pystr.data
  | _ => false

/-- Python `v in l` where `l` is a list of string literals. -/
def valIn (v : Val) (l : List String) : Bool :=
  match v with
  | .vstr s => l.contains s
  | _ => false

/-- A Python `dict` built by `{k: v for k, v in zip(headers, row)}`:
an association list where a later binding for the same key wins. -/
abbrev Dict := List (String × Val)

/-- Lookup of the effective (last) binding of a key, if any. -/
def dictFind (d : Dict) (k : String) : Option Val :=
  ((d.filter (fun p => p.1 == k)).getLast?).map (fun p => p.2)

/-- Python `d.get(k)`: `None` when the key is absent. -/
def dictGet (d : Dict) (k : String) : Val :=
  (dictFind d k).getD .vnull

/-- Python `d.get(k, default)`. -/
def dictGetD (d : Dict) (k : String) (v : Val) : Val :=
  (dictFind d k).getD v

/-- One worksheet: the header row (`ws[1]`) and the data rows
(`ws.iter_rows(min_row=2)`). -/
structure Sheet where
  header : List (Option String)
  rows : List (List Val)
deriving DecidableEq, Repr

/-- A loaded workbook: named sheets in `wb.sheetnames` order. -/
abbrev Workbook := List (String × Sheet)

/-- `wb[name]` guarded by `name in wb.sheetnames`. -/
def lookupSheet (wb : Workbook) (n : String) : Option Sheet :=
  (wb.find? (fun p => p.1 == n)).map (fun p => p.2)

/-- `h.lower().replace(' ', '_')`: since the pattern is a single character,
the replacement is character-wise, and lowercasing a space is the identity,
so the composite maps each character independently.  (Stated character-wise
so that it evaluates in the kernel.) -/
def normHeader (s : String) : String :=
  ⟨s.data.map (fun c => if c = ' ' then '_' else c.toLower)⟩

/-- Header cell rendering used by `get_data` in `validate_coverage`:
`c.value.lower().replace(' ', '_') if c.value else ''`. -/
def headerOrEmpty : Option String → String
  | some s => if s == "" then "" else normHeader s
  | none => ""

/-- The row dictionaries `get_data` builds for one sheet: rows with some
truthy cell, each zipped against the normalised headers. -/
def getDataRows (ws : Sheet) : List Dict :=
  let headers := ws.header.map headerOrEmpty
  (ws.rows.filter (fun r => r.any Val.truthy)).map (fun r => headers.zip r)

/-- `get_data(sheet_name)` inside `validate_coverage`: a missing sheet is
an empty row list. -/
def getData (wb : Workbook) (n : String) : List Dict :=
  match lookupSheet wb n with
  | none => []
  | some ws => getDataRows ws

/-- The handout-class content types (`valid_types` in `validate_coverage`). -/
def handoutTypes : List String :=
  ["formula", "concept_helper", "warning", "real_world", "flowchart", "image"]

/-- `[t for t in topics if t.get('subject_key') == sub_key]`. -/
def subTopicsOf (sub : Dict) (topics : List Dict) : List Dict :=
  topics.filter (fun t => dictGet t "subject_key" == dictGet sub "subject_key")

/-- Whether a content row counts as handout content for topic `tid`:
`c.get('section_id', '').startswith(tid) and c.get('content_type') in valid_types`. -/
def handoutFor (tid : Val) (c : Dict) : Bool :=
  pyStartswith (dictGetD c "section_id" (Val.vstr "")) tid &&
    valIn (dictGet c "content_type") handoutTypes

/-- The errors `validate_coverage` appends while examining one topic:
objectives, terms, quiz count, handout content, in source order. -/
def topicErrors (objectives terms content questions : List Dict)
    (topic : Dict) : List String :=
  let tid := dictGet topic "topic_id"
  let tname := (dictGet topic "topic_name").pystr
  let tObjs := objectives.filter (fun o => dictGet o "topic_id" == tid)
  let e1 := if tObjs.isEmpty then
    ["Topic '" ++ tname ++ "' (" ++ tid.pystr ++ ") missing Learning Objectives"] else []
  let tTerms := terms.filter (fun t => dictGet t "topic_id" == tid)
  let e2 := if tTerms.isEmpty then
    ["Topic '" ++ tname ++ "' (" ++ tid.pystr ++ ") missing Key Terms"] else []
  let tQuiz := questions.filter (fun q => dictGet q "topic_id" == tid)
  let e3 := if tQuiz.length < 3 then
    ["Topic '" ++ tname ++ "' (" ++ tid.pystr ++ ") has " ++ toString tQuiz.length ++
      " quiz questions (min 3 required)"] else []
  let tContent := content.filter (handoutFor tid)
  let e4 := if tContent.isEmpty then
    ["Topic '" ++ tname ++ "' (" ++ tid.pystr ++
      ") missing Handout-compatible content (concept_helper, real_world, etc.)"] else []
  e1 ++ e2 ++ e3 ++ e4

/-- The errors `validate_coverage` appends for one subject: the topic-count
check, then every matching topic's checks, in source order. -/
def subjectErrors (topics objectives terms content questions : List Dict)
    (sub : Dict) : List String :=
  let subTopics := subTopicsOf sub topics
  let e := if subTopics.length < 3 then
    ["Subject '" ++ (dictGet sub "name").pystr ++ "' has only " ++
      toString subTopics.length ++ " topics (min 3 required)"] else []
  e ++ subTopics.flatMap (topicErrors objectives terms content questions)

/-- The body of `validate_coverage` after `get_data` extraction: the
subject-count check, then the per-subject loop; the boolean result is
"no errors accumulated" (the function returns `False` iff `errors`). -/
def coverageCheck (subjects topics objectives terms content questions : List Dict) :
    Bool × List String :=
  let e0 := if subjects.length < 4 then
    ["Expected at least 4 subjects, found " ++ toString subjects.length] else []
  let errs := e0 ++ subjects.flatMap (subjectErrors topics objectives terms content questions)
  (errs.isEmpty, errs)

/-- `validate_coverage` on a loaded workbook. -/
def validateCoverage (wb : Workbook) : Bool × List String :=
  coverageCheck (getData wb "Subjects") (getData wb "Topics")
    (getData wb "Learning_Objectives") (getData wb "Key_Terms")
    (getData wb "Study_Content") (getData wb "Quiz_Questions")

/-- `CONTENT_TYPES`. -/
def CONTENT_TYPES : List String :=
  ["introduction", "formula", "concept_helper", "warning", "real_world",
   "text", "video", "image", "flowchart"]

/-- `VALID_ICONS`. -/
def VALID_ICONS : List String :=
  ["Zap", "Calculator", "FlaskConical", "Leaf", "Trophy", "Star", "Award", "Flame",
   "HelpCircle", "CheckCircle2", "Target", "BookOpen", "FileText", "Clock", "Globe",
   "Lightbulb", "AlertTriangle", "Atom", "Microscope", "Dna", "Pi", "Hammer", "RefreshCw",
   "Minimize2", "Triangle", "Disc", "Grid", "ArrowDown", "Link", "GitCommit", "Circle",
   "GitBranch", "Share2"]

/-- `SHEET_SCHEMAS`, restricted to the fields the validator reads: the sheet
name and its `required` column list, in declaration (iteration) order. -/
def SHEET_SCHEMAS : List (String × List String) :=
  [("Subjects", ["subject_id", "subject_key", "name"]),
   ("Topics", ["topic_id", "subject_key", "topic_name"]),
   ("Topic_Sections", ["section_id", "topic_id", "section_title"]),
   ("Learning_Objectives", ["objective_id", "topic_id", "objective_text"]),
   ("Key_Terms", ["term_id", "topic_id", "term", "definition"]),
   ("Study_Content", ["content_id", "section_id", "content_type", "content_text"]),
   ("Formulas", ["formula_id", "topic_id", "formula_text"]),
   ("Quiz_Questions", ["question_id", "topic_id", "question_text", "option_a", "option_b", "correct_answer"]),
   ("Achievements", ["achievement_id", "name", "description"])]

/-- Python repr of a list of strings, as an f-string interpolates
`CONTENT_TYPES`. -/
def pyListRepr (l : List String) : String :=
  "[" ++ String.intercalate ", " (l.map (fun s => "'" ++ s ++ "'")) ++ "]"

/-- Truthiness of a header cell (`if cell.value`). -/
def truthyHeader : Option String → Bool
  | some s => !(s == "")
  | none => false

/-- `headers_lower` in `validate_excel`: header cells are first filtered by
truthiness, then lowercased with spaces replaced by underscores.  (Because of
the filter, a falsy header cell shifts all later positions left.) -/
def headersLower (ws : Sheet) : List String :=
  (ws.header.filterMap (fun c =>
    match c with
    | some s => if s == "" then none else some (normHeader s)
    | none => none))

/-- `ws.cell(row=r+2, column=c+1).value` (0-based `r` over data rows,
0-based `c` over columns): absent cells read as `None`. -/
def cellAt (ws : Sheet) (r c : Nat) : Val :=
  (ws.rows.getD r []).getD c Val.vnull

/-- The content-type warnings `validate_excel` emits for the
`Study_Content` sheet: `type_col` is one past the index of `content_type`
in the filtered header list, and rows are numbered from 2. -/
def contentTypeWarnings (ws : Sheet) : List String :=
  let hl := headersLower ws
  if hl.contains "content_type" then
    let j := hl.indexOf "content_type"
    (List.range ws.rows.length).filterMap (fun r =>
      let v := cellAt ws r j
      if v.truthy && !(valIn v CONTENT_TYPES) then
        some ("Study_Content row " ++ toString (r + 2) ++ ": Invalid content_type '" ++
          v.pystr ++ "'. Valid: " ++ pyListRepr CONTENT_TYPES)
      else none)
  else []

/-- The icon warnings `validate_excel` emits for the three icon-bearing
sheets (`icon`, or `section_icon` for `Topic_Sections`). -/
def iconWarnings (name : String) (ws : Sheet) : List String :=
  if name == "Subjects" || name == "Topic_Sections" || name == "Achievements" then
    let iconColName := if !(name == "Topic_Sections") then "icon" else "section_icon"
    let hl := headersLower ws
    if hl.contains iconColName then
      let j := hl.indexOf iconColName
      (List.range ws.rows.length).filterMap (fun r =>
        let v := cellAt ws r j
        if v.truthy && !(valIn v VALID_ICONS) then
          some (name ++ " row " ++ toString (r + 2) ++ ": Unknown icon '" ++ v.pystr ++ "'")
        else none)
    else []
  else []

/-- The errors and warnings `validate_excel` accumulates for one present
sheet: missing required columns, then the no-data warning, the
content-type warnings and the icon warnings, in source order. -/
def sheetChecks (name : String) (required : List String) (ws : Sheet) :
    List String × List String :=
  let hl := headersLower ws
  let errs := required.filterMap (fun col =>
    if hl.contains col then none
    else some (name ++ ": Missing required column '" ++ col ++ "'"))
  let w1 := if ws.rows.isEmpty then [name ++ ": No data rows found"] else []
  let w2 := if name == "Study_Content" then contentTypeWarnings ws else []
  let w3 := iconWarnings name ws
  (errs, w1 ++ w2 ++ w3)

/-- `validate_excel` on a loaded workbook: per schema entry, either the
missing-sheet error or the per-sheet checks; the boolean result is the
function's return value `len(errors) == 0`, and the two lists are the
accumulated `errors` and `warnings`. -/
def validateExcel (wb : Workbook) : Bool × List String × List String :=
  let res := SHEET_SCHEMAS.map (fun p =>
    match lookupSheet wb p.1 with
    | none => (["Missing required sheet: " ++ p.1], ([] : List String))
    | some ws => sheetChecks p.1 p.2 ws)
  let errors := res.flatMap (fun p => p.1)
  let warnings := res.flatMap (fun p => p.2)
  (errors.isEmpty, errors, warnings)

/-- The output header names of `export_to_json`: falsy header cells become
positional `col_<i>` placeholders, others are normalised. -/
def exportHeaders (ws : Sheet) : List String :=
  ws.header.enum.map (fun p =>
    match p.2 with
    | some s => if s == "" then "col_" ++ toString p.1 else normHeader s
    | none => "col_" ++ toString p.1)

/-- Python dict assignment `d[k] = v`: updates the existing binding in
place, or appends a new one. -/
def dictSet (d : Dict) (k : String) (v : Val) : Dict :=
  if d.any (fun p => p.1 == k) then
    d.map (fun p => if p.1 == k then (k, v) else p)
  else d ++ [(k, v)]

/-- The `row_dict` loop of `export_to_json`: cells beyond the header count
are dropped, `None` serialises as the empty string. -/
def rowDict (headers : List String) (row : List Val) : Dict :=
  row.enum.foldl (fun d p =>
    if p.1 < headers.length then
      dictSet d (headers.getD p.1 "") (match p.2 with | .vnull => .vstr "" | v => v)
    else d) []

/-- The row-collection loop of `export_to_json` for one sheet: a row is
appended iff some cell `is not None`. -/
def exportRows (headers : List String) : List (List Val) → List Dict
  | [] => []
  | r :: rs =>
    if r.any (fun c => !(c == Val.vnull)) then
      rowDict headers r :: exportRows headers rs
    else exportRows headers rs

/-- `export_to_json`, minus file I/O: the JSON document as an ordered map
from sheet name to exported row dictionaries. -/
def exportToJson (wb : Workbook) : List (String × List Dict) :=
  wb.map (fun p => (p.1, exportRows (exportHeaders p.2) p.2.rows))

/-! ## The merge engine (`update_excel.py`)

Patch objects are JSON; an `Option Val` field distinguishes an absent key
(`none`) from a present one (whose value may itself be `null = Val.vnull`),
which is what `dict.get(key, default)` discriminates on. -/

/-- One element of a patch item's `sections` array. -/
structure PSection where
  id : Option Val
  title : Option Val
  icon : Option Val
  type : Option Val
  order : Option Val
deriving DecidableEq, Repr

/-- One element of a patch item's `content` array. -/
structure PContent where
  sectionId : Option Val
  type : Option Val
  title : Option Val
  text : Option Val
  videoUrl : Option Val
  imageUrl : Option Val
  description : Option Val
deriving DecidableEq, Repr

/-- One element of a patch item's `questions` array.  `options` is a plain
list because the source indexes it unconditionally (`q['options'][0..3]`). -/
structure PQuestion where
  question : Option Val
  options : List Val
  correctAnswer : Option Val
  explanation : Option Val
  difficulty : Option Val
  hint : Option Val
deriving DecidableEq, Repr

/-- One per-topic patch document.  `topicId` is read with
`subject_data.get('topicId')`, so an absent key is `Val.vnull`; the three
arrays are guarded by `'sections' in subject_data` etc. -/
structure PatchItem where
  topicId : Val
  sections : Option (List PSection)
  content : Option (List PContent)
  questions : Option (List PQuestion)
deriving DecidableEq, Repr

/-- A row of the `Topic_Sections` table, with the columns the merge writes. -/
structure SectionRow where
  topic_id : Val
  section_id : Val
  title : Val
  icon : Val
  section_type : Val
  order_index : Val
deriving DecidableEq, Repr

/-- A row of the `Study_Content` table, with the columns the merge writes. -/
structure ContentRow where
  content_id : Val
  section_id : Val
  content_type : Val
  content_title : Val
  content_text : Val
  video_url : Val
  image_url : Val
  description : Val
  order_index : Val
deriving DecidableEq, Repr

/-- A row of the `Quiz_Questions` table, with the columns the merge writes. -/
structure QuestionRow where
  question_id : Val
  topic_id : Val
  question_text : Val
  option_a : Val
  option_b : Val
  option_c : Val
  option_d : Val
  correct_answer : Val
  explanation : Val
  difficulty : Val
  hint : Val
  xp_reward : Val
  image_url : Val
deriving DecidableEq, Repr

/-- `o.get(k)`: absent key gives `None`. -/
def getOpt (o : Option Val) : Val := o.getD .vnull

/-- `o.get(k, d)`: absent key gives the default, a present `null` stays
`None`. -/
def getOr (o : Option Val) (d : Val) : Val := o.getD d

/-- The sections-row dictionary built per patch section. -/
def mkSectionRow (tid : Val) (s : PSection) : SectionRow :=
  { topic_id := tid
    section_id := getOpt s.id
    title := getOpt s.title
    icon := getOr s.icon (.vstr "BookOpen")
    section_type := getOr s.type (.vstr "content")
    order_index := getOr s.order (.vint 1) }

/-- `sections_rows` accumulated over the whole patch. -/
def sectionsRowsOf (data : List PatchItem) : List SectionRow :=
  data.flatMap (fun it =>
    match it.sections with
    | none => []
    | some ss => ss.map (mkSectionRow it.topicId))

/-- The content-row dictionary built per patch content item (`idx` is the
enumerate index within the item's `content` array). -/
def mkContentRow (tid : Val) (idx : Nat) (c : PContent) : ContentRow :=
  { content_id := .vstr ("cont-" ++ tid.pystr ++ "-" ++ toString (idx + 200))
    section_id := getOpt c.sectionId
    content_type := getOr c.type (.vstr "text")
    content_title := getOr c.title (.vstr "Info")
    content_text := getOr c.text (.vstr "")
    video_url := getOr c.videoUrl (.vstr "")
    image_url := getOr c.imageUrl (.vstr "")
    description := getOr c.description (.vstr "")
    order_index := .vint (Int.ofNat idx + 1) }

/-- `content_rows` accumulated over the whole patch. -/
def contentRowsOf (data : List PatchItem) : List ContentRow :=
  data.flatMap (fun it =>
    match it.content with
    | none => []
    | some cs => cs.enum.map (fun p => mkContentRow it.topicId p.1 p.2))

/-- The question-row dictionary built per patch question; `none` models the
`IndexError` the source raises when `options` has fewer than four
elements. -/
def mkQuestionRow (tid : Val) (idx : Nat) (q : PQuestion) : Option QuestionRow :=
  match q.options with
  | a :: b :: c :: d :: _ =>
    some { question_id := .vstr ("quiz-" ++ tid.pystr ++ "-" ++ toString (idx + 100))
           topic_id := tid
           question_text := getOpt q.question
           option_a := a
           option_b := b
           option_c := c
           option_d := d
           correct_answer := getOpt q.correctAnswer
           explanation := getOpt q.explanation
           difficulty := getOpt q.difficulty
           hint := getOpt q.hint
           xp_reward := .vint 10
           image_url := .vstr "" }
  | _ => none

/-- The question rows of one patch item, from enumerate index `idx`;
`none` once any question fails to translate. -/
def questionRowsFrom (tid : Val) : Nat → List PQuestion → Option (List QuestionRow)
  | _, [] => some []
  | idx, q :: qs => do
    let r ← mkQuestionRow tid idx q
    let rs ← questionRowsFrom tid (idx + 1) qs
    pure (r :: rs)

/-- `questions_rows` accumulated over the whole patch; `none` models the
exception aborting the merge before any table is written. -/
def questionsRowsOf : List PatchItem → Option (List QuestionRow)
  | [] => some []
  | it :: its => do
    let here ← match it.questions with
      | none => pure []
      | some qs => questionRowsFrom it.topicId 0 qs
    let rest ← questionsRowsOf its
    pure (here ++ rest)

/-- The three sheets the merge touches; `none` models absence of the sheet
from the workbook (`'Topic_Sections' in xls` etc.). -/
structure MergeState where
  sectionsTab : Option (List SectionRow)
  contentTab : Option (List ContentRow)
  questionsTab : Option (List QuestionRow)
deriving DecidableEq, Repr

/-- `target_topics` for the sections and content updates: the `topic_id`
values of the accumulated `sections_rows`. -/
def sectionTopics (srows : List SectionRow) : List Val :=
  srows.map (fun r => r.topic_id)

/-- The `Topic_Sections` update: evict rows whose `topic_id` is among the
patch section topics, then append the new rows; skipped entirely when the
patch produced no section rows. -/
def updateSections (srows : List SectionRow) (tab : Option (List SectionRow)) :
    Option (List SectionRow) :=
  if srows.isEmpty then tab
  else
    let tts := sectionTopics srows
    match tab with
    | some old => some (old.filter (fun r => !(tts.contains r.topic_id)) ++ srows)
    | none => some srows

/-- The eviction mask for `Study_Content`:
`any(str(x).startswith(t) for t in target_topics)` where `target_topics`
comes from `sections_rows`. -/
def contentMask (tts : List Val) (r : ContentRow) : Bool :=
  tts.any (fun t => pyStartswith r.section_id t)

/-- The `Study_Content` update: evict rows whose `section_id` starts with
any `sections_rows` topic, then append the new content rows; skipped
entirely when the patch produced no content rows. -/
def updateContent (srows : List SectionRow) (crows : List ContentRow)
    (tab : Option (List ContentRow)) : Option (List ContentRow) :=
  if crows.isEmpty then tab
  else
    let tts := sectionTopics srows
    match tab with
    | some old => some (old.filter (fun r => !(contentMask tts r)) ++ crows)
    | none => some crows

/-- The `Quiz_Questions` update: evict rows whose `topic_id` is among the
patch question topics, then append the new rows; skipped entirely when the
patch produced no question rows. -/
def updateQuestions (qrows : List QuestionRow) (tab : Option (List QuestionRow)) :
    Option (List QuestionRow) :=
  if qrows.isEmpty then tab
  else
    let tts := qrows.map (fun r => r.topic_id)
    match tab with
    | some old => some (old.filter (fun r => !(tts.contains r.topic_id)) ++ qrows)
    | none => some qrows

/-- `update_excel`, minus file I/O: translate the patch (failing hard, with
nothing written, if any question item is malformed), then update the three
tables. -/
def updateExcel (data : List PatchItem) (xls : MergeState) : Option MergeState :=
  let srows := sectionsRowsOf data
  let crows := contentRowsOf data
  match questionsRowsOf data with
  | none => none
  | some qrows =>
    some { sectionsTab := updateSections srows xls.sectionsTab
           contentTab := updateContent srows crows xls.contentTab
           questionsTab := updateQuestions qrows xls.questionsTab }

/-- The topic identifiers present in a patch (`topicId` of every item). -/
def patchTopics (data : List PatchItem) : List Val :=
  data.map (fun it => it.topicId)

/-- Modelled from the spec's words, for comparison with the source's
`contentMask`: the spec claims `Study_Content` eviction removes every
existing row whose `section_id` has SOME topic identifier PRESENT IN THE
PATCH as a string prefix.  The source instead draws the topic set from
`sections_rows` only. -/
def claimEvictionMask (data : List PatchItem) (r : ContentRow) : Bool :=
  (patchTopics data).any (fun t => pyStartswith r.section_id t)

/-! ## Concrete fixtures used by the per-claim theorems -/

/-- The patch of the spec's merge example (C3). -/
def patchC3 : List PatchItem :=
  [{ topicId := .vstr "phys-t1", sections := none, content := none,
     questions := some [{ question := some (.vstr "Q?"),
                          options := [.vstr "A", .vstr "B", .vstr "C", .vstr "D"],
                          correctAnswer := some (.vstr "A"),
                          explanation := some (.vstr "x"),
                          difficulty := none, hint := none }] }]

/-- A pre-existing `phys-t1` quiz row (one of five). -/
def oldQ (i : Nat) : QuestionRow :=
  { question_id := .vstr ("old-" ++ toString i), topic_id := .vstr "phys-t1",
    question_text := .vstr "q", option_a := .vstr "A", option_b := .vstr "B",
    option_c := .vstr "C", option_d := .vstr "D", correct_answer := .vstr "A",
    explanation := .vstr "e", difficulty := .vnull, hint := .vnull,
    xp_reward := .vint 10, image_url := .vstr "" }

/-- The dataset of the merge example: five pre-existing `phys-t1`
questions. -/
def xlsC3 : MergeState :=
  { sectionsTab := none, contentTab := none,
    questionsTab := some ((List.range 5).map oldQ) }

/-- The single question row the merge example's patch translates to. -/
def newQRowC3 : QuestionRow :=
  { question_id := .vstr "quiz-phys-t1-100", topic_id := .vstr "phys-t1",
    question_text := .vstr "Q?", option_a := .vstr "A", option_b := .vstr "B",
    option_c := .vstr "C", option_d := .vstr "D", correct_answer := .vstr "A",
    explanation := .vstr "x", difficulty := .vnull, hint := .vnull,
    xp_reward := .vint 10, image_url := .vstr "" }

/-- A content patch item for topic `t` arriving without any `sections`. -/
def pContentC1 : PContent :=
  { sectionId := some (.vstr "t-s1"), type := none, title := none,
    text := none, videoUrl := none, imageUrl := none, description := none }

/-- A patch that updates content for topic `t` but carries no sections. -/
def patchC1 : List PatchItem :=
  [{ topicId := .vstr "t", sections := none, content := some [pContentC1],
     questions := none }]

/-- A content patch item for the C2 counterexample. -/
def pContentC2 : PContent :=
  { sectionId := some (.vstr "top-sec-1"), type := none, title := none,
    text := none, videoUrl := none, imageUrl := none, description := none }

/-- A patch carrying content (and no sections) for topic `top`. -/
def patchC2 : List PatchItem :=
  [{ topicId := .vstr "top", sections := none, content := some [pContentC2],
     questions := none }]

/-- An existing `Study_Content` row whose `section_id` starts with the patch
topic `top`. -/
def oldContentC2 : ContentRow :=
  { content_id := .vstr "c-old", section_id := .vstr "top-sec-1-x",
    content_type := .vstr "text", content_title := .vstr "T",
    content_text := .vstr "x", video_url := .vstr "", image_url := .vstr "",
    description := .vstr "", order_index := .vint 1 }

/-- A dataset whose `Study_Content` table holds `oldContentC2`. -/
def xlsC2 : MergeState :=
  { sectionsTab := none, contentTab := some [oldContentC2], questionsTab := none }

/-- The content row `patchC2` translates to. -/
def newContentC2 : ContentRow :=
  { content_id := .vstr "cont-top-200", section_id := .vstr "top-sec-1",
    content_type := .vstr "text", content_title := .vstr "Info",
    content_text := .vstr "", video_url := .vstr "", image_url := .vstr "",
    description := .vstr "", order_index := .vint 1 }

/-- A question patch item whose `options` array has only three elements. -/
def pQuestionC8 : PQuestion :=
  { question := some (.vstr "Q"), options := [.vstr "A", .vstr "B", .vstr "C"],
    correctAnswer := none, explanation := none, difficulty := none, hint := none }

/-- A patch containing the malformed question item. -/
def patchC8 : List PatchItem :=
  [{ topicId := .vstr "t8", sections := none, content := none,
     questions := some [pQuestionC8] }]

/-- A section patch item for the amended-idempotence witness. -/
def pSectionW : PSection :=
  { id := some (.vstr "t-s1"), title := some (.vstr "S"), icon := none,
    type := none, order := none }

/-- A content patch item whose `sectionId` starts with its topic. -/
def pContentW : PContent :=
  { sectionId := some (.vstr "t-s1-c1"), type := none, title := none,
    text := none, videoUrl := none, imageUrl := none, description := none }

/-- A patch whose content comes together with its topic's sections. -/
def patchC1w : List PatchItem :=
  [{ topicId := .vstr "t", sections := some [pSectionW],
     content := some [pContentW], questions := none }]

/-- The section row `patchC1w` translates to. -/
def secRowW : SectionRow :=
  { topic_id := .vstr "t", section_id := .vstr "t-s1", title := .vstr "S",
    icon := .vstr "BookOpen", section_type := .vstr "content",
    order_index := .vint 1 }

/-- The content row `patchC1w` translates to. -/
def contRowW : ContentRow :=
  { content_id := .vstr "cont-t-200", section_id := .vstr "t-s1-c1",
    content_type := .vstr "text", content_title := .vstr "Info",
    content_text := .vstr "", video_url := .vstr "", image_url := .vstr "",
    description := .vstr "", order_index := .vint 1 }

/-- The merge of `patchC1w` into the empty dataset. -/
def d1W : MergeState :=
  { sectionsTab := some [secRowW], contentTab := some [contRowW],
    questionsTab := none }

/-- A section patch item for topic `top` (amended C2 witness). -/
def pSectionC2w : PSection :=
  { id := some (.vstr "top-s1"), title := none, icon := none,
    type := none, order := none }

/-- A patch with both sections and content for topic `top`. -/
def patchC2w : List PatchItem :=
  [{ topicId := .vstr "top", sections := some [pSectionC2w],
     content := some [pContentC2], questions := none }]

/-- An existing `Study_Content` row unrelated to topic `top`. -/
def oldKeepC2 : ContentRow :=
  { content_id := .vstr "c-keep", section_id := .vstr "other-1",
    content_type := .vstr "text", content_title := .vstr "K",
    content_text := .vstr "k", video_url := .vstr "", image_url := .vstr "",
    description := .vstr "", order_index := .vint 1 }

/-- A dataset holding one evictable and one unrelated content row. -/
def xlsC2w : MergeState :=
  { sectionsTab := none, contentTab := some [oldContentC2, oldKeepC2],
    questionsTab := none }

/-- The section row `patchC2w` translates to. -/
def secRowC2w : SectionRow :=
  { topic_id := .vstr "top", section_id := .vstr "top-s1", title := .vnull,
    icon := .vstr "BookOpen", section_type := .vstr "content",
    order_index := .vint 1 }

/-- The merge of `patchC2w` into `xlsC2w`. -/
def stC2w : MergeState :=
  { sectionsTab := some [secRowC2w],
    contentTab := some [oldKeepC2, newContentC2], questionsTab := none }

/-- A workbook with subjects and topics but no `Study_Content` sheet. -/
def wbC4 : Workbook :=
  [("Subjects", { header := [some "subject_id", some "subject_key", some "name"],
                  rows := [[Val.vstr "sub-1", Val.vstr "a", Val.vstr "S"]] }),
   ("Topics", { header := [some "topic_id", some "subject_key", some "topic_name"],
                rows := [[Val.vstr "t1", Val.vstr "a", Val.vstr "T1"]] })]

/-- The subject row `get_data` extracts from `wbC4`. -/
def subC4 : Dict :=
  [("subject_id", Val.vstr "sub-1"), ("subject_key", Val.vstr "a"),
   ("name", Val.vstr "S")]

/-- The topic row `get_data` extracts from `wbC4`. -/
def tC4 : Dict :=
  [("topic_id", Val.vstr "t1"), ("subject_key", Val.vstr "a"),
   ("topic_name", Val.vstr "T1")]

/-- A subject row for the orphan-topic witness. -/
def subW10 : Dict := [("subject_key", Val.vstr "a"), ("name", Val.vstr "S")]

/-- A topic row whose `subject_key` matches no subject. -/
def tOrphW : Dict :=
  [("topic_id", Val.vstr "tx"), ("subject_key", Val.vstr "b"),
   ("topic_name", Val.vstr "TX")]

/-- Substring occurrence over character lists (used to state "the error
string contains ..."). -/
def subOccurs (pat : List Char) : List Char → Bool
  | [] => pat.isEmpty
  | c :: rest => pat.isPrefixOf (c :: rest) || subOccurs pat rest

/-- `pat in s` for strings. -/
def strContainsSub (s pat : String) : Bool := subOccurs pat.data s.data

/-- The twelve topics of the coverage scenario:
`(topic_id, subject_key, topic_name)`. -/
def tidsC5 : List (String × String × String) :=
  [("s1-t1", "s1", "T1"), ("s1-t2", "s1", "T2"), ("s1-t3", "s1", "T3"),
   ("s2-t1", "s2", "T4"), ("s2-t2", "s2", "T5"), ("s2-t3", "s2", "T6"),
   ("s3-t1", "s3", "T7"), ("s3-t2", "s3", "T8"), ("s3-t3", "s3", "T9"),
   ("s4-t1", "s4", "T10"), ("s4-t2", "s4", "T11"), ("s4-t3", "s4", "T12")]

/-- The coverage-scenario workbook: 4 subjects with 3 topics each, every
topic fully covered, except that topic `s4-t3` has only 2 quiz questions. -/
def wbC5 : Workbook :=
  [("Subjects",
    { header := [some "subject_id", some "subject_key", some "name"],
      rows := [[Val.vstr "sub-1", Val.vstr "s1", Val.vstr "S1"],
               [Val.vstr "sub-2", Val.vstr "s2", Val.vstr "S2"],
               [Val.vstr "sub-3", Val.vstr "s3", Val.vstr "S3"],
               [Val.vstr "sub-4", Val.vstr "s4", Val.vstr "S4"]] }),
   ("Topics",
    { header := [some "topic_id", some "subject_key", some "topic_name"],
      rows := tidsC5.map (fun p =>
        [Val.vstr p.1, Val.vstr p.2.1, Val.vstr p.2.2]) }),
   ("Learning_Objectives",
    { header := [some "objective_id", some "topic_id", some "objective_text"],
      rows := tidsC5.map (fun p =>
        [Val.vstr ("o-" ++ p.1), Val.vstr p.1, Val.vstr "obj"]) }),
   ("Key_Terms",
    { header := [some "term_id", some "topic_id", some "term", some "definition"],
      rows := tidsC5.map (fun p =>
        [Val.vstr ("k-" ++ p.1), Val.vstr p.1, Val.vstr "w", Val.vstr "d"]) }),
   ("Study_Content",
    { header := [some "content_id", some "section_id", some "content_type",
                 some "content_text"],
      rows := tidsC5.map (fun p =>
        [Val.vstr ("c-" ++ p.1), Val.vstr (p.1 ++ "-s1"), Val.vstr "formula",
         Val.vstr "x"]) }),
   ("Quiz_Questions",
    { header := [some "question_id", some "topic_id"],
      rows := tidsC5.flatMap (fun p =>
        (List.range (if p.1 == "s4-t3" then 2 else 3)).map (fun k =>
          [Val.vstr ("q-" ++ p.1 ++ "-" ++ toString k), Val.vstr p.1])) })]

/-- The single error the scenario must produce. -/
def msgC5 : String := "Topic 'T12' (s4-t3) has 2 quiz questions (min 3 required)"

/-- A `Study_Content` sheet whose single row has `content_type = "joke"`. -/
def wsC6 : Sheet :=
  { header := [some "content_id", some "section_id", some "content_type",
               some "content_text"],
    rows := [[Val.vstr "c1", Val.vstr "s1", Val.vstr "joke", Val.vstr "x"]] }

/-- A workbook containing `wsC6`. -/
def wbC6 : Workbook := [("Study_Content", wsC6)]

/-! ## Theorems -/

/-- Congruence for `flatMap` with a pointwise hypothesis on members. -/
theorem flatMap_congr_mem {α β : Type} (l : List α) (f g : α → List β)
    (h : ∀ a ∈ l, f a = g a) : l.flatMap f = l.flatMap g := by
  induction l with
  | nil => rfl
  | cons a l ih =>
    simp only [List.flatMap_cons]
    rw [h a (List.mem_cons_self a l), ih (fun x hx => h x (List.mem_cons_of_mem a hx))]

/-- Filtering is idempotent. -/
theorem filter_idem {α : Type} (p : α → Bool) (l : List α) :
    (l.filter p).filter p = l.filter p :=
  List.filter_eq_self.mpr (fun _ ha => (List.mem_filter.mp ha).2)

/-- C7: for every dataset, the structural validator's `ok` is `true` exactly
when its accumulated error list is empty; the warning list plays no role,
since `ok` is computed as `len(errors) == 0`. -/
theorem validate_ok_iff_errors_empty (wb : Workbook) :
    (validateExcel wb).1 = true ↔ (validateExcel wb).2.1 = [] := by
  simp [validateExcel, List.isEmpty_iff]

/-- The row-collection loop of `export_to_json` keeps exactly the rows with
a non-`None` cell, in order, each converted to its dictionary. -/
theorem exportRows_eq_filter_map (hs : List String) (rs : List (List Val)) :
    exportRows hs rs =
      (rs.filter (fun r => r.any (fun c => !(c == Val.vnull)))).map (rowDict hs) := by
  induction rs with
  | nil => rfl
  | cons r rs ih =>
    cases h : r.any (fun c => !(c == Val.vnull)) <;>
      simp [exportRows, h, ih, List.filter_cons]

/-- C9: `to_json` includes a row exactly when some cell of the row is
non-empty (`is not None`); all-empty rows are dropped, and the kept rows
appear in source order as their dictionaries. -/
theorem export_includes_rows_with_some_cell (wb : Workbook) :
    exportToJson wb = wb.map (fun p =>
      (p.1, (p.2.rows.filter (fun r => r.any (fun c => !(c == Val.vnull)))).map
        (rowDict (exportHeaders p.2)))) := by
  simp [exportToJson, exportRows_eq_filter_map]

/-- C3: the spec's merge example.  Applying the one-question `phys-t1` patch
to a dataset with five pre-existing `phys-t1` questions leaves exactly one
row in `Quiz_Questions`; it has `topic_id = "phys-t1"` and
`question_id = "quiz-phys-t1-100"`. -/
theorem merge_example_quiz_phys_t1 :
    updateExcel patchC3 xlsC3 =
      some { sectionsTab := none, contentTab := none,
             questionsTab := some [newQRowC3] } ∧
    newQRowC3.topic_id = Val.vstr "phys-t1" ∧
    newQRowC3.question_id = Val.vstr "quiz-phys-t1-100" :=
  ⟨by decide, rfl, rfl⟩

/-- C1 counterexample: the merge is NOT idempotent for every dataset and
patch.  A patch carrying content but no sections for topic `t` appends its
content row twice, because the `Study_Content` eviction set is drawn from
`sections_rows`, which is empty here. -/
theorem merge_not_idempotent_cex :
    ¬ ((updateExcel patchC1
          { sectionsTab := none, contentTab := none, questionsTab := none }).bind
        (updateExcel patchC1)
      = updateExcel patchC1
          { sectionsTab := none, contentTab := none, questionsTab := none }) := by
  decide

/-- C2 counterexample: an existing `Study_Content` row whose `section_id`
has a patch topic identifier (`top`) as prefix — which the claim says must
be removed — survives the merge, because the patch item carries no
sections and the source's eviction set is drawn from `sections_rows`. -/
theorem content_eviction_claim_cex :
    claimEvictionMask patchC2 oldContentC2 = true ∧
    (updateExcel patchC2 xlsC2).map (fun st => st.contentTab) =
      some (some [oldContentC2, newContentC2]) := by
  decide

/-- Translating a question whose `options` list has fewer than four
elements fails (the source's `q['options'][3]` raises `IndexError`). -/
theorem mkQuestionRow_none_of_short (tid : Val) (idx : Nat) (q : PQuestion)
    (h : q.options.length < 4) : mkQuestionRow tid idx q = none := by
  rcases q with ⟨qq, opts, ca, ex, df, hi⟩
  rcases opts with _ | ⟨a, _ | ⟨b, _ | ⟨c, _ | ⟨d, rest⟩⟩⟩⟩
  · rfl
  · rfl
  · rfl
  · rfl
  · simp only [List.length_cons] at h; omega

/-- A short-options question anywhere in an item's list makes the whole
item's translation fail. -/
theorem questionRowsFrom_none (tid : Val) (qs : List PQuestion) :
    (∃ q ∈ qs, q.options.length < 4) →
    ∀ idx, questionRowsFrom tid idx qs = none := by
  induction qs with
  | nil => rintro ⟨q, hq, -⟩ idx; exact absurd hq (List.not_mem_nil q)
  | cons q qs ih =>
    rintro ⟨q0, hq0, hlen⟩ idx
    rcases List.mem_cons.mp hq0 with rfl | hmem
    · simp [questionRowsFrom, mkQuestionRow_none_of_short tid idx q0 hlen]
    · cases hmk : mkQuestionRow tid idx q with
      | none => simp [questionRowsFrom, hmk]
      | some r => simp [questionRowsFrom, hmk, ih ⟨q0, hmem, hlen⟩ (idx + 1)]

/-- A short-options question anywhere in the patch makes `questions_rows`
translation fail. -/
theorem questionsRowsOf_none (data : List PatchItem) :
    (∃ it ∈ data, ∃ q ∈ it.questions.getD [], q.options.length < 4) →
    questionsRowsOf data = none := by
  induction data with
  | nil => rintro ⟨it, hit, -⟩; exact absurd hit (List.not_mem_nil it)
  | cons it its ih =>
    rintro ⟨it0, hit0, q0, hq0, hlen⟩
    rcases List.mem_cons.mp hit0 with rfl | hmem
    · cases hqs : it0.questions with
      | none => rw [hqs] at hq0; exact absurd hq0 (List.not_mem_nil q0)
      | some qs =>
        rw [hqs] at hq0
        simp only [Option.getD_some] at hq0
        simp [questionsRowsOf, hqs,
          questionRowsFrom_none it0.topicId qs ⟨q0, hq0, hlen⟩ 0]
    · cases hqs : it.questions with
      | none => simp [questionsRowsOf, hqs, ih ⟨it0, hmem, q0, hq0, hlen⟩]
      | some qs =>
        cases hhere : questionRowsFrom it.topicId 0 qs with
        | none => simp [questionsRowsOf, hqs, hhere]
        | some here =>
          simp [questionsRowsOf, hqs, hhere, ih ⟨it0, hmem, q0, hq0, hlen⟩]

/-- C8: a patch containing a question item whose options array has fewer
than four elements makes the merge fail hard — `update_excel` aborts with
no table written — rather than producing a row with missing options. -/
theorem merge_fails_on_short_options (data : List PatchItem) (xls : MergeState)
    (h : ∃ it ∈ data, ∃ q ∈ it.questions.getD [], q.options.length < 4) :
    updateExcel data xls = none := by
  simp [updateExcel, questionsRowsOf_none data h]

/-- Witness for C8 at a concrete malformed patch. -/
theorem merge_fails_on_short_options_witness :
    updateExcel patchC8
      { sectionsTab := none, contentTab := none, questionsTab := none } = none :=
  merge_fails_on_short_options patchC8 _ (by decide)

/-- Rows of a list never survive the filter that drops every element whose
image under `f` occurs in the list's image. -/
theorem filter_not_contains_map_self {α β : Type} [DecidableEq β]
    (f : α → β) (l : List α) :
    l.filter (fun r => !((l.map f).contains (f r))) = [] := by
  rw [List.filter_eq_nil_iff]
  intro r hr
  have hmem : f r ∈ l.map f := List.mem_map_of_mem f hr
  simp only [List.contains, List.elem_iff.mpr hmem, Bool.not_true,
    Bool.false_eq_true, not_false_eq_true]

/-- The `Topic_Sections` update is idempotent: the appended rows all carry
topics in the eviction set, so a second pass evicts exactly them. -/
theorem updateSections_idem (srows : List SectionRow)
    (tab : Option (List SectionRow)) :
    updateSections srows (updateSections srows tab) = updateSections srows tab := by
  cases hs : srows.isEmpty with
  | true => simp [updateSections, hs]
  | false =>
    have hself := filter_not_contains_map_self (fun r : SectionRow => r.topic_id) srows
    cases tab with
    | none =>
      simp only [updateSections, hs, Bool.false_eq_true, if_false, sectionTopics]
      rw [hself, List.nil_append]
    | some old =>
      simp only [updateSections, hs, Bool.false_eq_true, if_false, sectionTopics]
      rw [List.filter_append, filter_idem, hself, List.append_nil]

/-- The `Quiz_Questions` update is idempotent, for the same reason. -/
theorem updateQuestions_idem (qrows : List QuestionRow)
    (tab : Option (List QuestionRow)) :
    updateQuestions qrows (updateQuestions qrows tab) = updateQuestions qrows tab := by
  cases hs : qrows.isEmpty with
  | true => simp [updateQuestions, hs]
  | false =>
    have hself := filter_not_contains_map_self (fun r : QuestionRow => r.topic_id) qrows
    cases tab with
    | none =>
      simp only [updateQuestions, hs, Bool.false_eq_true, if_false]
      rw [hself, List.nil_append]
    | some old =>
      simp only [updateQuestions, hs, Bool.false_eq_true, if_false]
      rw [List.filter_append, filter_idem, hself, List.append_nil]

/-- The `Study_Content` update is idempotent provided every appended content
row is itself caught by the eviction mask. -/
theorem updateContent_idem (srows : List SectionRow) (crows : List ContentRow)
    (tab : Option (List ContentRow))
    (h : ∀ r ∈ crows, contentMask (sectionTopics srows) r = true) :
    updateContent srows crows (updateContent srows crows tab) =
      updateContent srows crows tab := by
  cases hc : crows.isEmpty with
  | true => simp [updateContent, hc]
  | false =>
    have hcf : crows.filter (fun r => !(contentMask (sectionTopics srows) r)) = [] := by
      rw [List.filter_eq_nil_iff]
      intro r hr
      simp [h r hr]
    cases tab with
    | none => simp [updateContent, hc, hcf]
    | some old =>
      simp only [updateContent, hc, Bool.false_eq_true, if_false] at *
      rw [List.filter_append, filter_idem, hcf, List.append_nil]

/-- C1, amended: the merge is idempotent whenever every content row the
patch produces has a `section_id` that starts with some topic identifier
contributed by the patch's section rows (in particular, whenever each
topic's content update comes together with its sections).  The original
unconditional claim fails: see the counterexample theorem. -/
theorem merge_idempotent_amended (data : List PatchItem) (xls d1 : MergeState)
    (h1 : updateExcel data xls = some d1)
    (h2 : ∀ r ∈ contentRowsOf data,
      contentMask (sectionTopics (sectionsRowsOf data)) r = true) :
    updateExcel data d1 = some d1 := by
  simp only [updateExcel] at h1 ⊢
  cases hq : questionsRowsOf data with
  | none => rw [hq] at h1; exact absurd h1 (by simp)
  | some qrows =>
    rw [hq] at h1
    injection h1 with h1
    subst h1
    dsimp only
    rw [updateSections_idem, updateContent_idem _ _ _ h2, updateQuestions_idem]

/-- Witness for the amended C1 at a concrete patch and dataset. -/
theorem merge_idempotent_amended_witness :
    updateExcel patchC1w d1W = some d1W :=
  merge_idempotent_amended patchC1w
    { sectionsTab := none, contentTab := none, questionsTab := none } d1W
    (by decide) (by decide)

/-- C2, amended: when the patch yields at least one content row and the
`Study_Content` table is present, the merge removes exactly those existing
rows whose `section_id` has, as string prefix, the topic identifier of some
patch item that yields section rows, then appends the translated content
rows in patch order.  (The eviction set is drawn from `sections_rows`, not
from all patch topics: see the counterexample theorem.) -/
theorem content_eviction_amended (data : List PatchItem) (xls st : MergeState)
    (old : List ContentRow)
    (hst : updateExcel data xls = some st)
    (hcr : ¬ (contentRowsOf data = []))
    (hold : xls.contentTab = some old) :
    st.contentTab = some (old.filter (fun r =>
      !(contentMask (sectionTopics (sectionsRowsOf data)) r)) ++ contentRowsOf data) := by
  simp only [updateExcel] at hst
  cases hq : questionsRowsOf data with
  | none => rw [hq] at hst; exact absurd hst (by simp)
  | some qrows =>
    rw [hq] at hst
    injection hst with hst
    subst hst
    have hce : (contentRowsOf data).isEmpty = false := by
      rw [← Bool.not_eq_true, List.isEmpty_iff]
      exact hcr
    simp [updateContent, hce, hold]

/-- Witness for the amended C2 at a concrete patch and dataset. -/
theorem content_eviction_amended_witness :
    stC2w.contentTab = some (([oldContentC2, oldKeepC2].filter (fun r =>
      !(contentMask (sectionTopics (sectionsRowsOf patchC2w)) r))) ++
        contentRowsOf patchC2w) :=
  content_eviction_amended patchC2w xlsC2w stC2w [oldContentC2, oldKeepC2]
    (by decide) (by decide) (by decide)

/-- C4: when the `Study_Content` sheet is absent, `validate_coverage` raises
no structural error — `get_data` yields zero rows for it — and every topic
it examines (every topic matching some subject) is reported as missing
Handout-compatible content. -/
theorem coverage_missing_content_sheet (wb : Workbook)
    (h : lookupSheet wb "Study_Content" = none) :
    getData wb "Study_Content" = [] ∧
    ∀ sub ∈ getData wb "Subjects", ∀ t ∈ getData wb "Topics",
      dictGet t "subject_key" = dictGet sub "subject_key" →
      ("Topic '" ++ (dictGet t "topic_name").pystr ++ "' (" ++
        (dictGet t "topic_id").pystr ++
        ") missing Handout-compatible content (concept_helper, real_world, etc.)")
        ∈ (validateCoverage wb).2 := by
  have hempty : getData wb "Study_Content" = [] := by
    unfold getData
    rw [h]
  refine ⟨hempty, ?_⟩
  intro sub hsub t ht hkey
  unfold validateCoverage
  rw [hempty]
  unfold coverageCheck
  apply List.mem_append_right
  rw [List.mem_flatMap]
  refine ⟨sub, hsub, ?_⟩
  unfold subjectErrors
  apply List.mem_append_right
  rw [List.mem_flatMap]
  refine ⟨t, ?_, ?_⟩
  · unfold subTopicsOf
    rw [List.mem_filter]
    exact ⟨ht, by simp [hkey]⟩
  · simp [topicErrors]

/-- Witness for C4 at a concrete workbook without `Study_Content`. -/
theorem coverage_missing_content_sheet_witness :
    ("Topic 'T1' (t1) missing Handout-compatible content (concept_helper, real_world, etc.)")
      ∈ (validateCoverage wbC4).2 := by
  have h := coverage_missing_content_sheet wbC4 (by rfl)
  exact h.2 subC4 (by decide) tC4 (by decide) (by decide)

/-- C10: a topic row whose `subject_key` matches no subject is never
examined: it belongs to no subject's topic list, and deleting all its
copies from the Topics table leaves the whole coverage result unchanged
(so no error about it is ever emitted). -/
theorem coverage_orphan_topics_never_checked
    (subjects topics objectives terms content questions : List Dict) (t : Dict)
    (ht : t ∈ topics)
    (horphan : ∀ sub ∈ subjects,
      ¬ (dictGet t "subject_key" = dictGet sub "subject_key")) :
    (∀ sub ∈ subjects, t ∉ subTopicsOf sub topics) ∧
    coverageCheck subjects (topics.filter (fun t2 => !(t2 == t)))
        objectives terms content questions =
      coverageCheck subjects topics objectives terms content questions := by
  constructor
  · intro sub hsub hmem
    have hm := (List.mem_filter.mp hmem).2
    exact horphan sub hsub (by simpa using hm)
  · unfold coverageCheck
    have hsube : ∀ sub ∈ subjects,
        subjectErrors (topics.filter (fun t2 => !(t2 == t)))
          objectives terms content questions sub =
        subjectErrors topics objectives terms content questions sub := by
      intro sub hs
      unfold subjectErrors
      have hst : subTopicsOf sub (topics.filter (fun t2 => !(t2 == t))) =
          subTopicsOf sub topics := by
        unfold subTopicsOf
        rw [List.filter_filter]
        apply List.filter_congr
        intro x hx
        cases hmatch : (dictGet x "subject_key" == dictGet sub "subject_key") with
        | false => simp [hmatch]
        | true =>
          have hxt : ¬ (x = t) := by
            intro he
            subst he
            exact horphan sub hs (by simpa using hmatch)
          simp [hmatch, hxt]
      rw [hst]
    rw [flatMap_congr_mem subjects _ _ hsube]

/-- Witness for C10 at a concrete orphan topic. -/
theorem coverage_orphan_topics_witness :
    tOrphW ∉ subTopicsOf subW10 [tOrphW] ∧
    coverageCheck [subW10] ([tOrphW].filter (fun t2 => !(t2 == tOrphW))) [] [] [] [] =
      coverageCheck [subW10] [tOrphW] [] [] [] [] := by
  have h := coverage_orphan_topics_never_checked [subW10] [tOrphW] [] [] [] [] tOrphW
    (by decide) (by decide)
  exact ⟨h.1 subW10 (by decide), h.2⟩

/-- C6: a `Study_Content` row whose `content_type` cell (the cell the
validator reads, in the column the normalised header list locates) is
truthy and outside `CONTENT_TYPES` produces a warning naming the row (2-based),
the offending value and the full valid list; and `ok` is unaffected by
warnings — it is `true` whenever the error list is empty.  The hypothesis
that every header cell is truthy makes the located column be the row's
actual `content_type` column (the source indexes columns through the
truthiness-filtered header list). -/
theorem validate_invalid_content_type_warning (wb : Workbook) (ws : Sheet) (r : Nat)
    (hws : lookupSheet wb "Study_Content" = some ws)
    (_hall : ∀ c ∈ ws.header, truthyHeader c = true)
    (hmem : "content_type" ∈ headersLower ws)
    (hr : r < ws.rows.length)
    (htruthy : (cellAt ws r ((headersLower ws).indexOf "content_type")).truthy = true)
    (hinv : valIn (cellAt ws r ((headersLower ws).indexOf "content_type"))
      CONTENT_TYPES = false) :
    ("Study_Content row " ++ toString (r + 2) ++ ": Invalid content_type '" ++
      (cellAt ws r ((headersLower ws).indexOf "content_type")).pystr ++
      "'. Valid: " ++ pyListRepr CONTENT_TYPES) ∈ (validateExcel wb).2.2 ∧
    ((validateExcel wb).2.1 = [] → (validateExcel wb).1 = true) := by
  constructor
  · unfold validateExcel
    simp only
    rw [List.mem_flatMap]
    refine ⟨sheetChecks "Study_Content"
      ["content_id", "section_id", "content_type", "content_text"] ws, ?_, ?_⟩
    · rw [List.mem_map]
      refine ⟨("Study_Content",
        ["content_id", "section_id", "content_type", "content_text"]), by decide, ?_⟩
      rw [hws]
    · unfold sheetChecks
      simp only
      apply List.mem_append_left
      apply List.mem_append_right
      have hct : "Study_Content" == "Study_Content" := by decide
      rw [if_pos hct]
      unfold contentTypeWarnings
      have hcon : (headersLower ws).contains "content_type" = true :=
        List.elem_iff.mpr hmem
      rw [if_pos hcon]
      rw [List.mem_filterMap]
      refine ⟨r, List.mem_range.mpr hr, ?_⟩
      dsimp only
      rw [htruthy, hinv]
      rfl
  · intro he
    simp only [validateExcel] at he ⊢
    rw [he]
    rfl

/-- Witness for C6 at the `"joke"` row. -/
theorem validate_invalid_content_type_witness :
    ("Study_Content row 2: Invalid content_type 'joke'. Valid: ['introduction', 'formula', 'concept_helper', 'warning', 'real_world', 'text', 'video', 'image', 'flowchart']")
      ∈ (validateExcel wbC6).2.2 ∧
    ((validateExcel wbC6).2.1 = [] → (validateExcel wbC6).1 = true) :=
  validate_invalid_content_type_warning wbC6 wsC6 0 (by rfl) (by decide)
    (by decide) (by decide) (by decide) (by decide)

/-- C5: on the scenario workbook — 4 subjects with 3 topics each, all
coverage rules met except that topic `s4-t3` has only 2 quiz questions —
`validate_coverage` fails with exactly one error, for that topic; the
error string contains "2" and "min 3 required".  The singleton error list
is also the proof that no other topic receives an error. -/
theorem coverage_two_questions_scenario :
    (validateCoverage wbC5).1 = false ∧
    (validateCoverage wbC5).2 = [msgC5] ∧
    strContainsSub msgC5 "2" = true ∧
    strContainsSub msgC5 "min 3 required" = true := by
  refine ⟨by decide, by decide, by decide, by decide⟩

end StudyHub
